import Mathlib

/-!
Verification of the BLE command decoder and FOC core of the
Berkeley-robot-joint-optimization controller.

The decoder (`parseDirectCommandData` in `Ble_Handler.cpp`) is embedded over
`List ℕ` byte sequences; every byte access goes through `readByte`, which
returns `none` when the index is past the received length, so an out-of-bounds
dereference surfaces as a `none` result of the whole decode.  Float values on
the wire are idealized as rationals; the FOC trigonometry is idealized over ℝ.
-/

set_option maxHeartbeats 1000000

/-- Modelled from the spec: packet-type code of the SINGLE frame.  The header
`Ble_Handler.h` defining the constant is not among the provided sources; the
value 1 is fixed by the spec's concrete scenario `AA 55 01 00 06 00 64` and by
the layout comments `AA 55 01 DT ID VH VL` in `Ble_Handler.cpp`. -/
def PACKET_TYPE_SINGLE : ℕ := 1

/-- Modelled from the spec: packet-type code of the MULTI frame, from the
layout comment `AA 55 02 DT START_ID COUNT ...` in `Ble_Handler.cpp`. -/
def PACKET_TYPE_MULTI : ℕ := 2

/-- Modelled from the spec: packet-type code of the MULTI_STRUCT frame, from
the layout comment `AA 55 03 DT COUNT | items...` in `Ble_Handler.cpp`. -/
def PACKET_TYPE_MULTI_STRUCT : ℕ := 3

/-- Modelled from the spec: data-type tag for velocity (spec: `1 = velocity`,
and `Ble_Handler.cpp`: `0=角度，1=速度，2=电流`). -/
def DATA_TYPE_VELOCITY : ℕ := 1

/-- Modelled from the spec: data-type tag for current (spec: any recognized
tag other than 0/1 is current; the source comment fixes 2). -/
def DATA_TYPE_CURRENT : ℕ := 2

/-- The per-device configuration constants of the decoder.  `my_device_id` is
the global of the same name in `Ble_Handler.cpp`; `ANGLE_SCALE`,
`VELOCITY_SCALE` and `MAX_MOTORS` come from the missing header and are kept
abstract here. -/
structure BleConfig where
  my_device_id : ℕ
  ANGLE_SCALE : ℚ
  VELOCITY_SCALE : ℚ
  MAX_MOTORS : ℕ
deriving DecidableEq

/-- Modelled from the spec: a concrete configuration for witnesses and
counterexamples.  `my_device_id = 6` is the initializer in `Ble_Handler.cpp`;
`ANGLE_SCALE = 10` is fixed by the spec scenario (raw 100 at angle-scale 10.0
decodes to 10.0); the spec fixes only that `VELOCITY_SCALE` is a separate
scale distinct from the angle scale (we take 100) and that the legacy form
covers devices 1..10 (we take `MAX_MOTORS = 10`). -/
def specCfg : BleConfig := { my_device_id := 6, ANGLE_SCALE := 10, VELOCITY_SCALE := 100, MAX_MOTORS := 10 }

/-- Mirror of the `MultiStructParsed` struct of `Ble_Handler.h` as used in
`Ble_Handler.cpp` (packet type, device id, data type, raw and scaled value,
entry count). -/
structure MultiStructParsed where
  packet_type : ℕ
  device_id : ℕ
  data_type : ℕ
  raw_value : ℤ
  scaled_value : ℚ
  count : ℕ
deriving DecidableEq

/-- The zero-initialized `last_multi_struct_cmd = {}`. -/
def emptyMultiStruct : MultiStructParsed :=
  { packet_type := 0, device_id := 0, data_type := 0, raw_value := 0, scaled_value := 0, count := 0 }

/-- The decoder-owned mutable globals of `Ble_Handler.cpp`:
`ble_motor_target`, `new_command`, `data_scale_type`, `last_multi_struct_cmd`. -/
structure BleState where
  ble_motor_target : ℚ
  new_command : Bool
  data_scale_type : ℕ
  last_multi_struct_cmd : MultiStructParsed
deriving DecidableEq

/-- Initial values of the decoder globals (`0.0f`, `false`, `0`, `{}`). -/
def initialBleState : BleState :=
  { ble_motor_target := 0, new_command := false, data_scale_type := 0,
    last_multi_struct_cmd := emptyMultiStruct }

/-- Which packet type an acknowledgement reports (`SINGLE`/`MULTI`/`MULTI_STRUCT`
in the response text). -/
inductive RespTag where
  | single
  | multi
  | multiStruct
deriving DecidableEq

/-- An emitted BLE response: either an acknowledgement
`"<id>:<PACKET_TYPE>:<value>"` or the `"<id>:ERROR:UNKNOWN_PACKET"` error. -/
inductive BleResp where
  | ack (device_id : ℕ) (tag : RespTag) (value : ℚ)
  | unknownPacketError (device_id : ℕ)
deriving DecidableEq

/-- Reading byte `i` of the received payload, as the source's
`(uint8_t)data[i]`; `none` when `i` is past the received length. -/
def readByte (data : List ℕ) (i : ℕ) : Option ℕ :=
  (data.get? i).map (fun b => b % 256)

/-- The `(int16_t)` reinterpretation of a 16-bit big-endian pair
`(vh << 8) | vl`: two's complement on 16 bits. -/
def toInt16 (v : ℕ) : ℤ :=
  if v < 32768 then (v : ℤ) else (v : ℤ) - 65536

/-- `int16ToFloat` of `Ble_Handler.cpp`: `(float)value / scale`. -/
def int16ToFloat (value : ℤ) (scale : ℚ) : ℚ :=
  (value : ℚ) / scale

/-- `floatToInt16` of `Ble_Handler.cpp`: scale, truncate toward zero as the
`(int32_t)` cast does, then clamp to the signed 16-bit range. -/
def floatToInt16 (value : ℚ) (scale : ℚ) : ℤ :=
  let scaled_value : ℤ := if 0 ≤ value * scale then ⌊value * scale⌋ else ⌈value * scale⌉
  if 32767 < scaled_value then 32767
  else if scaled_value < -32768 then -32768
  else scaled_value

/-- The C library `fabs`, written so that it evaluates by kernel reduction. -/
def fabs (q : ℚ) : ℚ :=
  if q < 0 then -q else q

theorem fabs_eq_abs (q : ℚ) : fabs q = |q| := by
  unfold fabs
  by_cases h : q < 0
  · rw [if_pos h, abs_of_neg h]
  · rw [if_neg h, abs_of_nonneg (not_lt.mp h)]

/-- The de-duplication update repeated in every decode path of
`Ble_Handler.cpp`: if the new target differs from `ble_motor_target` by more
than `0.001`, store it and set `new_command`; otherwise clear `new_command`. -/
def applyDedup (st : BleState) (new_target : ℚ) : BleState :=
  if 1/1000 < fabs (new_target - st.ble_motor_target) then
    { st with ble_motor_target := new_target, new_command := true }
  else
    { st with new_command := false }

/-- The data-type to (scale, `data_scale_type`) selection shared by the MULTI
and MULTI_STRUCT paths of `parseDirectCommandData`. -/
def selectScale (cfg : BleConfig) (data_type : ℕ) : ℚ × ℕ :=
  if data_type = DATA_TYPE_VELOCITY then (cfg.VELOCITY_SCALE, 1)
  else if data_type = DATA_TYPE_CURRENT then ((1000 : ℚ), 2)
  else (cfg.ANGLE_SCALE, 0)

/-- The `PACKET_TYPE_SINGLE` branch of `parseDirectCommandData`. -/
def parseSingle (cfg : BleConfig) (st : BleState) (data : List ℕ)
    (has_frame_header : Bool) : Option (BleState × List BleResp) :=
  let min_length : ℕ := if has_frame_header then 7 else 6
  if data.length < min_length then some (st, [])
  else
    let id_offset : ℕ := if has_frame_header then 4 else 1
    let type_offset : ℕ := if has_frame_header then 3 else 2
    let value_offset : ℕ := if has_frame_header then 5 else 3
    match readByte data id_offset, readByte data type_offset with
    | some target_id, some _data_type =>
      if target_id ≠ cfg.my_device_id then
        some ({ st with new_command := false }, [])
      else
        match readByte data value_offset, readByte data (value_offset + 1) with
        | some vh, some vl =>
          let target_int : ℤ := toInt16 (vh * 256 + vl)
          let new_target : ℚ := int16ToFloat target_int cfg.ANGLE_SCALE
          let st' := applyDedup st new_target
          some (st', [BleResp.ack cfg.my_device_id RespTag.single st'.ble_motor_target])
        | _, _ => none
    | _, _ => none

/-- The `PACKET_TYPE_MULTI` branch of `parseDirectCommandData`: the slice form
is attempted first (header required, ≥ 6 bytes, ids and exact length checked,
`uint8_t end_id = start_id + count - 1` truncating to 8 bits), then the legacy
fixed 24-byte form, else the frame is dropped.  `data_scale_type` is assigned
from the data-type byte before any of those validations, as in the source. -/
def parseMulti (cfg : BleConfig) (st : BleState) (data : List ℕ)
    (has_frame_header : Bool) : Option (BleState × List BleResp) :=
  let n := data.length
  let type_offset : ℕ := if has_frame_header then 3 else 1
  if n ≤ type_offset then some (st, [])
  else
    match readByte data type_offset with
    | none => none
    | some data_type =>
      let sc := selectScale cfg data_type
      let scale := sc.1
      let st := { st with data_scale_type := sc.2 }
      let sliceResult : Option (Option (BleState × List BleResp)) :=
        if has_frame_header ∧ 6 ≤ n then
          match readByte data (type_offset + 1), readByte data (type_offset + 2) with
          | some start_id, some count =>
            let data_start_offset := type_offset + 3
            if (1 ≤ start_id ∧ start_id ≤ cfg.MAX_MOTORS ∧ 1 ≤ count) ∧
                n = data_start_offset + count * 2 then
              let end_id := (start_id + count - 1) % 256
              if cfg.my_device_id < start_id ∨ end_id < cfg.my_device_id then
                some (some (st, []))
              else
                let index_in_slice := cfg.my_device_id - start_id
                let data_offset := data_start_offset + index_in_slice * 2
                if n < data_offset + 2 then some (some (st, []))
                else
                  match readByte data data_offset, readByte data (data_offset + 1) with
                  | some vh, some vl =>
                    let target_int : ℤ := toInt16 (vh * 256 + vl)
                    let new_target : ℚ := int16ToFloat target_int scale
                    let st' := applyDedup st new_target
                    some (some (st', [BleResp.ack cfg.my_device_id RespTag.multi st'.ble_motor_target]))
                  | _, _ => none
            else some none
          | _, _ => none
        else some none
      match sliceResult with
      | none => none
      | some (some r) => some r
      | some none =>
        if has_frame_header ∧ n = 24 then
          let data_start_offset := type_offset + 1
          if cfg.my_device_id < 1 ∨ 10 < cfg.my_device_id then some (st, [])
          else
            let idx := cfg.my_device_id - 1
            let data_offset := data_start_offset + idx * 2
            if n < data_offset + 2 then some (st, [])
            else
              match readByte data data_offset, readByte data (data_offset + 1) with
              | some vh, some vl =>
                let target_int : ℤ := toInt16 (vh * 256 + vl)
                let new_target : ℚ := int16ToFloat target_int scale
                let st' := applyDedup st new_target
                some (st', [BleResp.ack cfg.my_device_id RespTag.multi st'.ble_motor_target])
              | _, _ => none
        else some (st, [])

/-- The entry scan of the MULTI_STRUCT branch: 3-byte items
`(device-id, value-high, value-low)` are read in order; the first item whose
id equals this device's id yields its decoded 16-bit value. -/
def scanStructItems (data : List ℕ) (my_id : ℕ) (off : ℕ) : ℕ → Option (Option ℤ)
  | 0 => some none
  | r + 1 =>
    match readByte data off, readByte data (off + 1), readByte data (off + 2) with
    | some id, some vh, some vl =>
      if id = my_id then some (some (toInt16 (vh * 256 + vl)))
      else scanStructItems data my_id (off + 3) r
    | _, _, _ => none

/-- The `PACKET_TYPE_MULTI_STRUCT` branch of `parseDirectCommandData`. -/
def parseMultiStruct (cfg : BleConfig) (st : BleState) (data : List ℕ)
    (has_frame_header : Bool) : Option (BleState × List BleResp) :=
  let n := data.length
  let type_offset : ℕ := if has_frame_header then 3 else 1
  let count_offset := type_offset + 1
  let items_offset := type_offset + 2
  if n < items_offset then some (st, [])
  else
    match readByte data type_offset, readByte data count_offset with
    | some dt, some count =>
      let sc := selectScale cfg dt
      let st := { st with data_scale_type := sc.2 }
      if n < items_offset + count * 3 then some (st, [])
      else
        match scanStructItems data cfg.my_device_id items_offset count with
        | none => none
        | some none => some (st, [])
        | some (some raw) =>
          let target : ℚ := int16ToFloat raw sc.1
          let st := { st with last_multi_struct_cmd :=
            { packet_type := PACKET_TYPE_MULTI_STRUCT, device_id := cfg.my_device_id,
              data_type := dt, raw_value := raw, scaled_value := target, count := count } }
          let st' := applyDedup st target
          some (st', [BleResp.ack cfg.my_device_id RespTag.multiStruct st'.ble_motor_target])
    | _, _ => none

/-- `parseDirectCommandData` of `Ble_Handler.cpp`: drop frames shorter than 3
bytes, detect the `AA 55` frame header (only together with a recognized
packet-type third byte), dispatch on the packet type, and answer unknown types
with an explicit error response. -/
def parseDirectCommandData (cfg : BleConfig) (st : BleState) (data : List ℕ) :
    Option (BleState × List BleResp) :=
  if data.length < 3 then some (st, [])
  else
    match readByte data 0, readByte data 1, readByte data 2 with
    | some b0, some b1, some b2 =>
      let has_frame_header : Bool :=
        (b0 == 170) && (b1 == 85) &&
          ((b2 == PACKET_TYPE_SINGLE) || (b2 == PACKET_TYPE_MULTI) || (b2 == PACKET_TYPE_MULTI_STRUCT))
      let packet_type := if has_frame_header then b2 else b0
      if packet_type = PACKET_TYPE_SINGLE then
        parseSingle cfg st data has_frame_header
      else if packet_type = PACKET_TYPE_MULTI then
        parseMulti cfg st data has_frame_header
      else if packet_type = PACKET_TYPE_MULTI_STRUCT then
        parseMultiStruct cfg st data has_frame_header
      else
        some (st, [BleResp.unknownPacketError cfg.my_device_id])
    | _, _, _ => none

/-- Processing of a framed SINGLE frame addressed to this device: the
big-endian value at offsets 5/6 is decoded with the angle scale and pushed
through the de-duplication update; one acknowledgement reports the resulting
stored target. -/
theorem parseSingle_framed_hit (cfg : BleConfig) (st : BleState) (dt vh vl : ℕ) (junk : List ℕ)
    (hmy : cfg.my_device_id < 256) (hdt : dt < 256) (hvh : vh < 256) (hvl : vl < 256) :
    parseDirectCommandData cfg st (170 :: 85 :: 1 :: dt :: cfg.my_device_id :: vh :: vl :: junk) =
      some (applyDedup st (int16ToFloat (toInt16 (vh * 256 + vl)) cfg.ANGLE_SCALE),
        [BleResp.ack cfg.my_device_id RespTag.single
          (applyDedup st (int16ToFloat (toInt16 (vh * 256 + vl)) cfg.ANGLE_SCALE)).ble_motor_target]) := by
  have h1 : cfg.my_device_id % 256 = cfg.my_device_id := Nat.mod_eq_of_lt hmy
  have h2 : dt % 256 = dt := Nat.mod_eq_of_lt hdt
  have h3 : vh % 256 = vh := Nat.mod_eq_of_lt hvh
  have h4 : vl % 256 = vl := Nat.mod_eq_of_lt hvl
  simp [parseDirectCommandData, parseSingle, readByte, List.get?, h1, h2, h3, h4,
    PACKET_TYPE_SINGLE, PACKET_TYPE_MULTI, PACKET_TYPE_MULTI_STRUCT]
  rw [if_neg (by omega), if_neg (by omega)]

/-- Processing of an unframed SINGLE frame addressed to this device. -/
theorem parseSingle_unframed_hit (cfg : BleConfig) (st : BleState) (dt vh vl : ℕ) (junk : List ℕ)
    (hmy : cfg.my_device_id < 256) (hdt : dt < 256) (hvh : vh < 256) (hvl : vl < 256)
    (hjunk : 1 ≤ junk.length) :
    parseDirectCommandData cfg st (1 :: cfg.my_device_id :: dt :: vh :: vl :: junk) =
      some (applyDedup st (int16ToFloat (toInt16 (vh * 256 + vl)) cfg.ANGLE_SCALE),
        [BleResp.ack cfg.my_device_id RespTag.single
          (applyDedup st (int16ToFloat (toInt16 (vh * 256 + vl)) cfg.ANGLE_SCALE)).ble_motor_target]) := by
  have h1 : cfg.my_device_id % 256 = cfg.my_device_id := Nat.mod_eq_of_lt hmy
  have h2 : dt % 256 = dt := Nat.mod_eq_of_lt hdt
  have h3 : vh % 256 = vh := Nat.mod_eq_of_lt hvh
  have h4 : vl % 256 = vl := Nat.mod_eq_of_lt hvl
  simp [parseDirectCommandData, parseSingle, readByte, List.get?, h1, h2, h3, h4,
    PACKET_TYPE_SINGLE, PACKET_TYPE_MULTI, PACKET_TYPE_MULTI_STRUCT]
  rw [if_neg (by omega), if_neg (by omega)]

/-- A framed SINGLE frame addressed to a different device clears `new_command`
and produces no response. -/
theorem parseSingle_framed_miss (cfg : BleConfig) (st : BleState) (dt tid vh vl : ℕ)
    (junk : List ℕ) (htid : tid < 256) (hne : tid ≠ cfg.my_device_id) :
    parseDirectCommandData cfg st (170 :: 85 :: 1 :: dt :: tid :: vh :: vl :: junk) =
      some ({ st with new_command := false }, []) := by
  have h1 : tid % 256 = tid := Nat.mod_eq_of_lt htid
  simp [parseDirectCommandData, parseSingle, readByte, List.get?, h1, hne,
    PACKET_TYPE_SINGLE, PACKET_TYPE_MULTI, PACKET_TYPE_MULTI_STRUCT]
  rw [if_neg (by omega), if_neg (by omega)]

/-- An unframed SINGLE frame addressed to a different device clears
`new_command` and produces no response. -/
theorem parseSingle_unframed_miss (cfg : BleConfig) (st : BleState) (dt tid vh vl : ℕ)
    (junk : List ℕ) (htid : tid < 256) (hne : tid ≠ cfg.my_device_id)
    (hjunk : 1 ≤ junk.length) :
    parseDirectCommandData cfg st (1 :: tid :: dt :: vh :: vl :: junk) =
      some ({ st with new_command := false }, []) := by
  have h1 : tid % 256 = tid := Nat.mod_eq_of_lt htid
  simp [parseDirectCommandData, parseSingle, readByte, List.get?, h1, hne,
    PACKET_TYPE_SINGLE, PACKET_TYPE_MULTI, PACKET_TYPE_MULTI_STRUCT]
  rw [if_neg (by omega), if_neg (by omega)]

/-- A decoder state with a pending (not yet consumed) dirty flag and a stored
setpoint of 10, used to exhibit the dirty-flag behavior on duplicates. -/
def dirtyState : BleState :=
  { ble_motor_target := 10, new_command := true, data_scale_type := 0,
    last_multi_struct_cmd := emptyMultiStruct }

/-- Claim C1 (amended): for every valid SINGLE frame (framed or unframed)
addressed to this device, if the converted value differs from the stored
setpoint by more than 0.001 the setpoint is updated, the dirty flag is set,
and exactly one acknowledgement carrying the device id and the converted
value is emitted; if the difference is at most 0.001 the setpoint is left
untouched, the dirty flag is CLEARED (set to false, even if it was pending),
and an acknowledgement carrying the stored value is still emitted. -/
theorem C1_single_epsilon_dedup (cfg : BleConfig) (st : BleState) (dt vh vl : ℕ)
    (junk junk' : List ℕ)
    (hmy : cfg.my_device_id < 256) (hdt : dt < 256) (hvh : vh < 256) (hvl : vl < 256)
    (hjunk : 1 ≤ junk'.length) :
    parseDirectCommandData cfg st (170 :: 85 :: 1 :: dt :: cfg.my_device_id :: vh :: vl :: junk) =
      some (if 1/1000 < |int16ToFloat (toInt16 (vh * 256 + vl)) cfg.ANGLE_SCALE - st.ble_motor_target|
        then ({ st with
                  ble_motor_target := int16ToFloat (toInt16 (vh * 256 + vl)) cfg.ANGLE_SCALE
                  new_command := true },
          [BleResp.ack cfg.my_device_id RespTag.single
            (int16ToFloat (toInt16 (vh * 256 + vl)) cfg.ANGLE_SCALE)])
        else ({ st with new_command := false },
          [BleResp.ack cfg.my_device_id RespTag.single st.ble_motor_target])) ∧
    parseDirectCommandData cfg st (1 :: cfg.my_device_id :: dt :: vh :: vl :: junk') =
      some (if 1/1000 < |int16ToFloat (toInt16 (vh * 256 + vl)) cfg.ANGLE_SCALE - st.ble_motor_target|
        then ({ st with
                  ble_motor_target := int16ToFloat (toInt16 (vh * 256 + vl)) cfg.ANGLE_SCALE
                  new_command := true },
          [BleResp.ack cfg.my_device_id RespTag.single
            (int16ToFloat (toInt16 (vh * 256 + vl)) cfg.ANGLE_SCALE)])
        else ({ st with new_command := false },
          [BleResp.ack cfg.my_device_id RespTag.single st.ble_motor_target])) := by
  constructor
  · rw [parseSingle_framed_hit cfg st dt vh vl junk hmy hdt hvh hvl]
    unfold applyDedup
    rw [fabs_eq_abs]
    split_ifs with h <;> simp
  · rw [parseSingle_unframed_hit cfg st dt vh vl junk' hmy hdt hvh hvl hjunk]
    unfold applyDedup
    rw [fabs_eq_abs]
    split_ifs with h <;> simp

/-- Witness for C1: the spec's concrete SINGLE scenario
`AA 55 01 00 06 00 64` on the initial state updates the setpoint to 10, sets
the dirty flag and acknowledges with the converted value. -/
theorem C1_witness :
    parseDirectCommandData specCfg initialBleState [170, 85, 1, 0, 6, 0, 100] =
      some ({ initialBleState with ble_motor_target := 10, new_command := true },
        [BleResp.ack 6 RespTag.single 10]) := by
  have h := (C1_single_epsilon_dedup specCfg initialBleState 0 0 100 [] [0]
    (by norm_num [specCfg]) (by norm_num) (by norm_num) (by norm_num) (by norm_num)).1
  simp only [show specCfg.my_device_id = 6 from rfl] at h
  rw [h]
  norm_num [int16ToFloat, toInt16, specCfg, initialBleState]

/-- Counterexample to C1 as stated: re-sending the value already stored (10)
while the dirty flag is still pending does NOT leave the dirty flag set — the
code clears `new_command` in the ≤ epsilon branch, so the actual result
differs from the state predicted by the claim (dirty flag still true). -/
theorem C1_counterexample :
    parseDirectCommandData specCfg dirtyState [170, 85, 1, 0, 6, 0, 100] =
      some ({ dirtyState with new_command := false }, [BleResp.ack 6 RespTag.single 10]) ∧
    (some ({ dirtyState with new_command := false }, [BleResp.ack 6 RespTag.single 10]) :
        Option (BleState × List BleResp)) ≠
      some (dirtyState, [BleResp.ack 6 RespTag.single 10]) := by
  refine ⟨?_, ?_⟩
  · norm_num [parseDirectCommandData, parseSingle, readByte, List.get?, toInt16,
      int16ToFloat, applyDedup, selectScale, specCfg, dirtyState, fabs,
      PACKET_TYPE_SINGLE, PACKET_TYPE_MULTI, PACKET_TYPE_MULTI_STRUCT, emptyMultiStruct]
  · simp [dirtyState]

/-- Claim C6 (amended): the SINGLE path converts the payload with the angle
scale regardless of the frame's data-type byte — the decoded result is
independent of that byte, and an update always stores
`raw / ANGLE_SCALE` (the tag-dependent mapping applies only to the MULTI and
MULTI_STRUCT paths). -/
theorem C6_single_always_angle_scale (cfg : BleConfig) (st : BleState) (dt dt' vh vl : ℕ)
    (junk : List ℕ)
    (hmy : cfg.my_device_id < 256) (hdt : dt < 256) (hdt' : dt' < 256)
    (hvh : vh < 256) (hvl : vl < 256) :
    parseDirectCommandData cfg st (170 :: 85 :: 1 :: dt :: cfg.my_device_id :: vh :: vl :: junk) =
      parseDirectCommandData cfg st (170 :: 85 :: 1 :: dt' :: cfg.my_device_id :: vh :: vl :: junk) ∧
    (1/1000 < |int16ToFloat (toInt16 (vh * 256 + vl)) cfg.ANGLE_SCALE - st.ble_motor_target| →
      parseDirectCommandData cfg st (170 :: 85 :: 1 :: dt :: cfg.my_device_id :: vh :: vl :: junk) =
        some ({ st with
                  ble_motor_target := int16ToFloat (toInt16 (vh * 256 + vl)) cfg.ANGLE_SCALE
                  new_command := true },
          [BleResp.ack cfg.my_device_id RespTag.single
            (int16ToFloat (toInt16 (vh * 256 + vl)) cfg.ANGLE_SCALE)])) := by
  constructor
  · rw [parseSingle_framed_hit cfg st dt vh vl junk hmy hdt hvh hvl,
      parseSingle_framed_hit cfg st dt' vh vl junk hmy hdt' hvh hvl]
  · intro h
    rw [parseSingle_framed_hit cfg st dt vh vl junk hmy hdt hvh hvl]
    unfold applyDedup
    rw [fabs_eq_abs, if_pos h]

/-- Witness for C6: a SINGLE frame with the velocity data-type byte still
decodes 100 with the angle scale (10), giving 10. -/
theorem C6_witness :
    parseDirectCommandData specCfg initialBleState [170, 85, 1, 1, 6, 0, 100] =
      some ({ initialBleState with ble_motor_target := 10, new_command := true },
        [BleResp.ack 6 RespTag.single 10]) := by
  have h := (C6_single_always_angle_scale specCfg initialBleState 1 0 0 100 []
    (by norm_num [specCfg]) (by norm_num) (by norm_num) (by norm_num) (by norm_num)).2
  simp only [show specCfg.my_device_id = 6 from rfl] at h
  have h10 : (1:ℚ)/1000 <
      |int16ToFloat (toInt16 (0 * 256 + 100)) specCfg.ANGLE_SCALE -
        initialBleState.ble_motor_target| := by
    norm_num [int16ToFloat, toInt16, specCfg, initialBleState]
  rw [h h10]
  norm_num [int16ToFloat, toInt16, specCfg, initialBleState]

/-- Counterexample to C6 as stated: a SINGLE frame carrying the velocity
data-type tag (1) and raw value 100 is stored as `100 / ANGLE_SCALE = 10`,
not as `100 / VELOCITY_SCALE = 1` as the tag-dependent mapping would demand. -/
theorem C6_counterexample :
    parseDirectCommandData specCfg initialBleState [170, 85, 1, 1, 6, 0, 100] =
      some ({ initialBleState with ble_motor_target := 10, new_command := true },
        [BleResp.ack 6 RespTag.single 10]) ∧
    (10 : ℚ) ≠ (toInt16 (0 * 256 + 100) : ℚ) / specCfg.VELOCITY_SCALE := by
  constructor
  · norm_num [parseDirectCommandData, parseSingle, readByte, List.get?, toInt16,
      int16ToFloat, applyDedup, selectScale, specCfg, initialBleState, fabs,
      PACKET_TYPE_SINGLE, PACKET_TYPE_MULTI, PACKET_TYPE_MULTI_STRUCT, emptyMultiStruct]
  · norm_num [toInt16, specCfg]

/-- Shifting a byte read over the six header bytes of a framed MULTI frame. -/
theorem readByte_shift6 (a b c d e f : ℕ) (l : List ℕ) (k : ℕ) :
    readByte (a :: b :: c :: d :: e :: f :: l) (k + 6) = readByte l k := rfl

/-- Shifting a byte read over the four header bytes of a framed legacy MULTI
frame. -/
theorem readByte_shift4 (a b c d : ℕ) (l : List ℕ) (k : ℕ) :
    readByte (a :: b :: c :: d :: l) (k + 4) = readByte l k := rfl

/-- An in-range `get?` returns the `getD` value. -/
theorem get?_eq_some_getD (l : List ℕ) (i : ℕ) (h : i < l.length) :
    l.get? i = some (l.getD i 0) := by
  cases hg : l.get? i with
  | none => exact absurd (List.get?_eq_none.mp hg) (by omega)
  | some v => rw [List.getD_eq_get?, hg]; rfl

/-- An in-range `getD` of a list of bytes is a byte. -/
theorem getD_lt_256 (l : List ℕ) (i : ℕ) (h : i < l.length)
    (hb : ∀ b ∈ l, b < 256) : l.getD i 0 < 256 := by
  rw [List.getD_eq_getElem l 0 h]
  exact hb _ (List.getElem_mem h)

/-- `getD_lt_256` in the `getElem?` normal form produced by `simp`. -/
theorem getElem?_getD_lt_256 (l : List ℕ) (i : ℕ) (h : i < l.length)
    (hb : ∀ b ∈ l, b < 256) : l[i]?.getD 0 < 256 := by
  have hB := getD_lt_256 l i h hb
  rwa [List.getD_eq_getElem?_getD] at hB

/-- Processing of a framed MULTI slice frame whose slice covers this device:
the device's entry is decoded with the tag-selected scale and pushed through
the de-duplication update, after `data_scale_type` is set from the tag. -/
theorem parseMulti_slice_hit (cfg : BleConfig) (st : BleState) (dt S C : ℕ)
    (payload : List ℕ)
    (hmy : cfg.my_device_id < 256) (hdt : dt < 256) (hS : S < 256) (hC : C < 256)
    (hb : ∀ b ∈ payload, b < 256)
    (hS1 : 1 ≤ S) (hSmax : S ≤ cfg.MAX_MOTORS) (hC1 : 1 ≤ C) (hfit : S + C ≤ 256)
    (hlen : payload.length = 2 * C)
    (hlo : S ≤ cfg.my_device_id) (hhi : cfg.my_device_id < S + C) :
    parseDirectCommandData cfg st (170 :: 85 :: 2 :: dt :: S :: C :: payload) =
      some (applyDedup { st with data_scale_type := (selectScale cfg dt).2 }
          (int16ToFloat (toInt16 (payload.getD (2 * (cfg.my_device_id - S)) 0 * 256 +
            payload.getD (2 * (cfg.my_device_id - S) + 1) 0)) (selectScale cfg dt).1),
        [BleResp.ack cfg.my_device_id RespTag.multi
          (applyDedup { st with data_scale_type := (selectScale cfg dt).2 }
            (int16ToFloat (toInt16 (payload.getD (2 * (cfg.my_device_id - S)) 0 * 256 +
              payload.getD (2 * (cfg.my_device_id - S) + 1) 0)) (selectScale cfg dt).1)).ble_motor_target]) := by
  have h2 : dt % 256 = dt := Nat.mod_eq_of_lt hdt
  have h3 : S % 256 = S := Nat.mod_eq_of_lt hS
  have h4 : C % 256 = C := Nat.mod_eq_of_lt hC
  have hend : (S + C - 1) % 256 = S + C - 1 := Nat.mod_eq_of_lt (by omega)
  have hi1 : 2 * (cfg.my_device_id - S) < payload.length := by omega
  have hi2 : 2 * (cfg.my_device_id - S) + 1 < payload.length := by omega
  have hr1 : readByte (170 :: 85 :: 2 :: dt :: S :: C :: payload)
      (6 + (cfg.my_device_id - S) * 2) = some (payload.getD (2 * (cfg.my_device_id - S)) 0) := by
    rw [show 6 + (cfg.my_device_id - S) * 2 = 2 * (cfg.my_device_id - S) + 6 by omega,
      readByte_shift6]
    unfold readByte
    rw [get?_eq_some_getD payload _ hi1]
    simp [Nat.mod_eq_of_lt (getElem?_getD_lt_256 payload _ hi1 hb)]
  have hr2 : readByte (170 :: 85 :: 2 :: dt :: S :: C :: payload)
      (6 + (cfg.my_device_id - S) * 2 + 1) = some (payload.getD (2 * (cfg.my_device_id - S) + 1) 0) := by
    rw [show 6 + (cfg.my_device_id - S) * 2 + 1 = (2 * (cfg.my_device_id - S) + 1) + 6 by omega,
      readByte_shift6]
    unfold readByte
    rw [get?_eq_some_getD payload _ hi2]
    simp [Nat.mod_eq_of_lt (getElem?_getD_lt_256 payload _ hi2 hb)]
  have e0 : readByte (170 :: 85 :: 2 :: dt :: S :: C :: payload) 0 = some 170 := rfl
  have e1 : readByte (170 :: 85 :: 2 :: dt :: S :: C :: payload) 1 = some 85 := rfl
  have e2 : readByte (170 :: 85 :: 2 :: dt :: S :: C :: payload) 2 = some 2 := rfl
  have e3 : readByte (170 :: 85 :: 2 :: dt :: S :: C :: payload) 3 = some dt := by
    simp [readByte, List.get?, h2]
  have e4 : readByte (170 :: 85 :: 2 :: dt :: S :: C :: payload) 4 = some S := by
    simp [readByte, List.get?, h3]
  have e5 : readByte (170 :: 85 :: 2 :: dt :: S :: C :: payload) 5 = some C := by
    simp [readByte, List.get?, h4]
  have hlen6 : payload.length + 1 + 1 + 1 + 1 + 1 + 1 = 6 + C * 2 := by omega
  have hge6 : 6 ≤ payload.length + 1 + 1 + 1 + 1 + 1 + 1 := by omega
  have hnmiss1 : ¬(cfg.my_device_id < S) := by omega
  have hnmiss2 : ¬(S + C - 1 < cfg.my_device_id) := by omega
  have hnbound : ¬(6 + C * 2 < 6 + (cfg.my_device_id - S) * 2 + 2) := by omega
  have hlt3 : ¬(6 + C * 2 < 3) := by omega
  have hle3 : ¬(6 + C * 2 ≤ 3) := by omega
  simp [parseDirectCommandData, parseMulti, e0, e1, e2, e3, e4, e5, hr1, hr2,
    hS1, hSmax, hC1, hlen6, hge6, hnmiss1, hnmiss2, hnbound, hlt3, hle3, hend,
    PACKET_TYPE_SINGLE, PACKET_TYPE_MULTI, PACKET_TYPE_MULTI_STRUCT]

/-- A framed MULTI slice frame that validates but whose range check rejects
this device (the source compares against the 8-bit truncated
`end_id = (start_id + count - 1) % 256`) sets `data_scale_type` from the tag
and produces no response and no other change. -/
theorem parseMulti_slice_miss (cfg : BleConfig) (st : BleState) (dt S C : ℕ)
    (payload : List ℕ)
    (hdt : dt < 256) (hS : S < 256) (hC : C < 256)
    (hS1 : 1 ≤ S) (hSmax : S ≤ cfg.MAX_MOTORS) (hC1 : 1 ≤ C)
    (hlen : payload.length = 2 * C)
    (hmiss : cfg.my_device_id < S ∨ (S + C - 1) % 256 < cfg.my_device_id) :
    parseDirectCommandData cfg st (170 :: 85 :: 2 :: dt :: S :: C :: payload) =
      some ({ st with data_scale_type := (selectScale cfg dt).2 }, []) := by
  have h2 : dt % 256 = dt := Nat.mod_eq_of_lt hdt
  have h3 : S % 256 = S := Nat.mod_eq_of_lt hS
  have h4 : C % 256 = C := Nat.mod_eq_of_lt hC
  have e0 : readByte (170 :: 85 :: 2 :: dt :: S :: C :: payload) 0 = some 170 := rfl
  have e1 : readByte (170 :: 85 :: 2 :: dt :: S :: C :: payload) 1 = some 85 := rfl
  have e2 : readByte (170 :: 85 :: 2 :: dt :: S :: C :: payload) 2 = some 2 := rfl
  have e3 : readByte (170 :: 85 :: 2 :: dt :: S :: C :: payload) 3 = some dt := by
    simp [readByte, List.get?, h2]
  have e4 : readByte (170 :: 85 :: 2 :: dt :: S :: C :: payload) 4 = some S := by
    simp [readByte, List.get?, h3]
  have e5 : readByte (170 :: 85 :: 2 :: dt :: S :: C :: payload) 5 = some C := by
    simp [readByte, List.get?, h4]
  have hlen6 : payload.length + 1 + 1 + 1 + 1 + 1 + 1 = 6 + C * 2 := by omega
  have hlt3 : ¬(6 + C * 2 < 3) := by omega
  have hle3 : ¬(6 + C * 2 ≤ 3) := by omega
  simp [parseDirectCommandData, parseMulti, e0, e1, e2, e3, e4, e5,
    hS1, hSmax, hC1, hlen6, hlt3, hle3, hmiss,
    PACKET_TYPE_SINGLE, PACKET_TYPE_MULTI, PACKET_TYPE_MULTI_STRUCT]

/-- Claim C4 (amended): a framed MULTI slice frame with start-id `S` in
`[1, MAX_MOTORS]`, count `C ≥ 1`, `S + C ≤ 256` (so that the 8-bit
`end_id = S + C - 1` does not wrap), exact length `6 + 2·C`, and this
device's id in `[S, S+C)` decodes the `(id−S)`-th big-endian 16-bit entry,
divides it by the tag-selected scale (angle for 0, velocity for 1, 1000 for
the current tag 2), applies the 0.001-epsilon de-duplication to setpoint and
dirty flag, and emits exactly one acknowledgement. -/
theorem C4_multi_slice_decode (cfg : BleConfig) (st : BleState) (dt S C : ℕ)
    (payload : List ℕ)
    (hmy : cfg.my_device_id < 256) (hS : S < 256) (hC : C < 256)
    (hb : ∀ b ∈ payload, b < 256)
    (hS1 : 1 ≤ S) (hSmax : S ≤ cfg.MAX_MOTORS) (hC1 : 1 ≤ C) (hfit : S + C ≤ 256)
    (hlen : payload.length = 2 * C)
    (hlo : S ≤ cfg.my_device_id) (hhi : cfg.my_device_id < S + C)
    (hdt3 : dt = 0 ∨ dt = 1 ∨ dt = 2) :
    parseDirectCommandData cfg st (170 :: 85 :: 2 :: dt :: S :: C :: payload) =
      some (if 1/1000 <
          |int16ToFloat (toInt16 (payload.getD (2 * (cfg.my_device_id - S)) 0 * 256 +
              payload.getD (2 * (cfg.my_device_id - S) + 1) 0))
            (if dt = 1 then cfg.VELOCITY_SCALE else if dt = 2 then (1000 : ℚ) else cfg.ANGLE_SCALE) -
            st.ble_motor_target|
        then ({ st with
                  ble_motor_target := int16ToFloat
                    (toInt16 (payload.getD (2 * (cfg.my_device_id - S)) 0 * 256 +
                      payload.getD (2 * (cfg.my_device_id - S) + 1) 0))
                    (if dt = 1 then cfg.VELOCITY_SCALE else if dt = 2 then (1000 : ℚ) else cfg.ANGLE_SCALE)
                  new_command := true
                  data_scale_type := if dt = 1 then 1 else if dt = 2 then 2 else 0 },
          [BleResp.ack cfg.my_device_id RespTag.multi
            (int16ToFloat (toInt16 (payload.getD (2 * (cfg.my_device_id - S)) 0 * 256 +
                payload.getD (2 * (cfg.my_device_id - S) + 1) 0))
              (if dt = 1 then cfg.VELOCITY_SCALE else if dt = 2 then (1000 : ℚ) else cfg.ANGLE_SCALE))])
        else ({ st with
                  new_command := false
                  data_scale_type := if dt = 1 then 1 else if dt = 2 then 2 else 0 },
          [BleResp.ack cfg.my_device_id RespTag.multi st.ble_motor_target])) := by
  have hdt : dt < 256 := by rcases hdt3 with rfl | rfl | rfl <;> norm_num
  rw [parseMulti_slice_hit cfg st dt S C payload hmy hdt hS hC hb hS1 hSmax hC1 hfit hlen hlo hhi]
  rcases hdt3 with rfl | rfl | rfl <;>
    · unfold applyDedup
      rw [fabs_eq_abs]
      simp only [selectScale, DATA_TYPE_VELOCITY, DATA_TYPE_CURRENT]
      norm_num
      split_ifs with h <;> simp

/-- Witness for C4: a framed velocity slice for devices 5..7 delivers the
second entry (raw 500, scaled 5) to device 6 and acknowledges it. -/
theorem C4_witness :
    parseDirectCommandData specCfg initialBleState [170, 85, 2, 1, 5, 3, 0, 50, 1, 244, 0, 10] =
      some ({ initialBleState with
                ble_motor_target := 5
                new_command := true
                data_scale_type := 1 },
        [BleResp.ack 6 RespTag.multi 5]) := by
  have h := C4_multi_slice_decode specCfg initialBleState 1 5 3 [0, 50, 1, 244, 0, 10]
    (by norm_num [specCfg]) (by norm_num) (by norm_num) (by decide)
    (by norm_num) (by norm_num [specCfg]) (by norm_num) (by norm_num)
    (by norm_num) (by norm_num [specCfg]) (by norm_num [specCfg]) (by norm_num)
  simp only [show specCfg.my_device_id = 6 from rfl] at h
  rw [h]
  norm_num [int16ToFloat, toInt16, specCfg, initialBleState, List.getD, List.get?]

/-- Counterexample to C4 as stated: for start-id 2 and count 255 the real end
of the slice is 256, but the code stores `end_id` in a `uint8_t`, yielding
`(2 + 255 - 1) % 256 = 0`, so device 6 — although inside `[S, S+C)` — is
rejected by the range check: no setpoint update and no acknowledgement happen,
where the claim demands an update to the decoded entry (179.9) and one
acknowledgement. -/
theorem C4_counterexample :
    parseDirectCommandData specCfg initialBleState
        (170 :: 85 :: 2 :: 0 :: 2 :: 255 :: List.replicate 510 7) =
      some ({ initialBleState with data_scale_type := 0 }, []) ∧
    ([] : List BleResp) ≠ [BleResp.ack 6 RespTag.multi ((1799 : ℚ)/10)] := by
  constructor
  · rw [parseMulti_slice_miss specCfg initialBleState 0 2 255 (List.replicate 510 7)
      (by norm_num) (by norm_num) (by norm_num) (by norm_num) (by norm_num [specCfg])
      (by norm_num) (by rw [List.length_replicate]) (by norm_num [specCfg])]
    norm_num [selectScale, DATA_TYPE_VELOCITY, DATA_TYPE_CURRENT]
  · simp

/-- An in-range byte read succeeds and yields a byte. -/
theorem readByte_some (data : List ℕ) (i : ℕ) (h : i < data.length) :
    ∃ v, readByte data i = some v ∧ v < 256 := by
  refine ⟨data.getD i 0 % 256, ?_, Nat.mod_lt _ (by norm_num)⟩
  unfold readByte
  rw [get?_eq_some_getD data i h]
  rfl

/-- An unframed MULTI frame (packet-type byte first) sets `data_scale_type`
from its data-type byte and is then dropped: both the slice form and the
legacy fixed form require the `AA 55` frame header. -/
theorem parseMulti_unframed_drop (cfg : BleConfig) (st : BleState) (dt : ℕ)
    (rest : List ℕ) (hdt : dt < 256) (hrest : 1 ≤ rest.length) :
    parseDirectCommandData cfg st (2 :: dt :: rest) =
      some ({ st with data_scale_type := (selectScale cfg dt).2 }, []) := by
  have h2 : dt % 256 = dt := Nat.mod_eq_of_lt hdt
  obtain ⟨v2, hv2, -⟩ := readByte_some (2 :: dt :: rest) 2 (by simp; omega)
  have e0 : readByte (2 :: dt :: rest) 0 = some 2 := rfl
  have e1 : readByte (2 :: dt :: rest) 1 = some dt := by
    simp [readByte, List.get?, h2]
  have hlt3 : ¬(rest.length + 1 + 1 < 3) := by omega
  simp [parseDirectCommandData, parseMulti, e0, e1, hv2, hlt3,
    PACKET_TYPE_SINGLE, PACKET_TYPE_MULTI, PACKET_TYPE_MULTI_STRUCT]

/-- Processing of a framed legacy fixed-form MULTI frame (total length 24,
velocity data-type) by the device with id 3: provided the first value's bytes
cannot be mistaken for a valid slice header, the third packed entry is decoded
with the velocity scale and pushed through the de-duplication update. -/
theorem parseMulti_legacy_hit3 (cfg : BleConfig) (st : BleState)
    (v0 v1 v2 v3 v4 v5 : ℕ) (rest : List ℕ)
    (hmy3 : cfg.my_device_id = 3)
    (h0 : v0 < 256) (h1 : v1 < 256) (h4 : v4 < 256) (h5 : v5 < 256)
    (hrest : rest.length = 14)
    (hnoslice : ¬((1 ≤ v0 ∧ v0 ≤ cfg.MAX_MOTORS ∧ 1 ≤ v1) ∧ 24 = 6 + v1 * 2)) :
    parseDirectCommandData cfg st (170 :: 85 :: 2 :: 1 :: v0 :: v1 :: v2 :: v3 :: v4 :: v5 :: rest) =
      some (applyDedup { st with data_scale_type := 1 }
          (int16ToFloat (toInt16 (v4 * 256 + v5)) cfg.VELOCITY_SCALE),
        [BleResp.ack 3 RespTag.multi
          (applyDedup { st with data_scale_type := 1 }
            (int16ToFloat (toInt16 (v4 * 256 + v5)) cfg.VELOCITY_SCALE)).ble_motor_target]) := by
  have e0 : v0 % 256 = v0 := Nat.mod_eq_of_lt h0
  have e1 : v1 % 256 = v1 := Nat.mod_eq_of_lt h1
  have e4 : v4 % 256 = v4 := Nat.mod_eq_of_lt h4
  have e5 : v5 % 256 = v5 := Nat.mod_eq_of_lt h5
  have hn24 : rest.length + 1 + 1 + 1 + 1 + 1 + 1 + 1 + 1 + 1 + 1 = 24 := by omega
  simp [parseDirectCommandData, parseMulti, readByte, List.get?, e0, e1, e4, e5,
    hmy3, hnoslice, hn24, selectScale, DATA_TYPE_VELOCITY, DATA_TYPE_CURRENT,
    PACKET_TYPE_SINGLE, PACKET_TYPE_MULTI, PACKET_TYPE_MULTI_STRUCT]

/-- A framed legacy fixed-form MULTI frame reaching a device whose id is
outside [1, 10] sets `data_scale_type` and is dropped without a response. -/
theorem parseMulti_legacy_out_of_range (cfg : BleConfig) (st : BleState)
    (v0 v1 : ℕ) (rest : List ℕ)
    (hmyout : cfg.my_device_id = 0 ∨ 10 < cfg.my_device_id)
    (h0 : v0 < 256) (h1 : v1 < 256)
    (hrest : rest.length = 18)
    (hnoslice : ¬((1 ≤ v0 ∧ v0 ≤ cfg.MAX_MOTORS ∧ 1 ≤ v1) ∧ 24 = 6 + v1 * 2)) :
    parseDirectCommandData cfg st (170 :: 85 :: 2 :: 1 :: v0 :: v1 :: rest) =
      some ({ st with data_scale_type := 1 }, []) := by
  have e0 : v0 % 256 = v0 := Nat.mod_eq_of_lt h0
  have e1 : v1 % 256 = v1 := Nat.mod_eq_of_lt h1
  have hn24 : rest.length + 1 + 1 + 1 + 1 + 1 + 1 = 24 := by omega
  simp [parseDirectCommandData, parseMulti, readByte, List.get?, e0, e1,
    hmyout, hnoslice, hn24, selectScale, DATA_TYPE_VELOCITY, DATA_TYPE_CURRENT,
    PACKET_TYPE_SINGLE, PACKET_TYPE_MULTI, PACKET_TYPE_MULTI_STRUCT]

/-- Modelled from the spec: the configuration of the device with id 3
appearing in the spec's legacy-MULTI scenario (spec-modelled scales as in
`specCfg`). -/
def cfg3 : BleConfig := { my_device_id := 3, ANGLE_SCALE := 10, VELOCITY_SCALE := 100, MAX_MOTORS := 10 }

/-- Claim C5 (amended): the legacy fixed ten-value MULTI form is recognized
only with the `AA 55` frame header (total length 24).  An unframed MULTI frame
is dropped after setting the scale-mode tag, with no setpoint change and no
acknowledgement.  For the framed form with velocity data-type (and first
value's bytes not mistakable for a valid slice header), device 3 decodes the
3rd (1-indexed) packed entry scaled by the velocity factor with the usual
de-duplication, and a device whose id lies outside [1,10] sees no change
except the scale tag. -/
theorem C5_legacy_multi (cfg : BleConfig) (st : BleState) :
    (∀ rest : List ℕ, 1 ≤ rest.length →
      parseDirectCommandData cfg st (2 :: 1 :: rest) =
        some ({ st with data_scale_type := 1 }, [])) ∧
    (∀ v0 v1 v2 v3 v4 v5 : ℕ, ∀ rest : List ℕ,
      cfg.my_device_id = 3 →
      v0 < 256 → v1 < 256 → v4 < 256 → v5 < 256 → rest.length = 14 →
      ¬((1 ≤ v0 ∧ v0 ≤ cfg.MAX_MOTORS ∧ 1 ≤ v1) ∧ 24 = 6 + v1 * 2) →
      parseDirectCommandData cfg st
          (170 :: 85 :: 2 :: 1 :: v0 :: v1 :: v2 :: v3 :: v4 :: v5 :: rest) =
        some (if 1/1000 <
            |int16ToFloat (toInt16 (v4 * 256 + v5)) cfg.VELOCITY_SCALE - st.ble_motor_target|
          then ({ st with
                    ble_motor_target := int16ToFloat (toInt16 (v4 * 256 + v5)) cfg.VELOCITY_SCALE
                    new_command := true
                    data_scale_type := 1 },
            [BleResp.ack 3 RespTag.multi (int16ToFloat (toInt16 (v4 * 256 + v5)) cfg.VELOCITY_SCALE)])
          else ({ st with new_command := false, data_scale_type := 1 },
            [BleResp.ack 3 RespTag.multi st.ble_motor_target]))) ∧
    (∀ v0 v1 : ℕ, ∀ rest : List ℕ,
      (cfg.my_device_id = 0 ∨ 10 < cfg.my_device_id) →
      v0 < 256 → v1 < 256 → rest.length = 18 →
      ¬((1 ≤ v0 ∧ v0 ≤ cfg.MAX_MOTORS ∧ 1 ≤ v1) ∧ 24 = 6 + v1 * 2) →
      parseDirectCommandData cfg st (170 :: 85 :: 2 :: 1 :: v0 :: v1 :: rest) =
        some ({ st with data_scale_type := 1 }, [])) := by
  refine ⟨?_, ?_, ?_⟩
  · intro rest hrest
    rw [parseMulti_unframed_drop cfg st 1 rest (by norm_num) hrest]
    norm_num [selectScale, DATA_TYPE_VELOCITY, DATA_TYPE_CURRENT]
  · intro v0 v1 v2 v3 v4 v5 rest hmy3 h0 h1 h4 h5 hrest hnoslice
    rw [parseMulti_legacy_hit3 cfg st v0 v1 v2 v3 v4 v5 rest hmy3 h0 h1 h4 h5 hrest hnoslice]
    unfold applyDedup
    rw [fabs_eq_abs]
    split_ifs with h <;> simp
  · intro v0 v1 rest hmyout h0 h1 hrest hnoslice
    exact parseMulti_legacy_out_of_range cfg st v0 v1 rest hmyout h0 h1 hrest hnoslice

/-- Witness for C5: a framed legacy 24-byte velocity frame delivers its third
packed entry (raw 200, scaled 2) to device 3. -/
theorem C5_witness :
    parseDirectCommandData cfg3 initialBleState
        (170 :: 85 :: 2 :: 1 :: 0 :: 100 :: 0 :: 0 :: 0 :: 200 ::
          [0, 0, 0, 0, 0, 0, 0, 0, 0, 0, 0, 0, 0, 0]) =
      some ({ initialBleState with
                ble_motor_target := 2
                new_command := true
                data_scale_type := 1 },
        [BleResp.ack 3 RespTag.multi 2]) := by
  have h := (C5_legacy_multi cfg3 initialBleState).2.1 0 100 0 0 0 200
    [0, 0, 0, 0, 0, 0, 0, 0, 0, 0, 0, 0, 0, 0]
    (by norm_num [cfg3]) (by norm_num) (by norm_num) (by norm_num) (by norm_num)
    (by norm_num) (by norm_num)
  rw [h]
  norm_num [int16ToFloat, toInt16, cfg3, initialBleState]

/-- Counterexample to C5 as stated: the unframed legacy MULTI frame of the
spec's scenario (packet type 2, velocity data-type, ten packed values whose
third entry is raw 100) is NOT decoded by device 3 — the legacy path requires
the `AA 55` frame header, so the frame only mutates the scale tag and the
setpoint stays 0 instead of becoming `100 / VELOCITY_SCALE = 1`. -/
theorem C5_counterexample :
    parseDirectCommandData cfg3 initialBleState
        (2 :: 1 :: [0, 1, 0, 2, 0, 100, 0, 0, 0, 0, 0, 0, 0, 0, 0, 0, 0, 0, 0, 0]) =
      some ({ initialBleState with data_scale_type := 1 }, []) ∧
    ({ initialBleState with data_scale_type := 1 }).ble_motor_target ≠
      (100 : ℚ) / cfg3.VELOCITY_SCALE := by
  constructor
  · rw [parseMulti_unframed_drop cfg3 initialBleState 1
      [0, 1, 0, 2, 0, 100, 0, 0, 0, 0, 0, 0, 0, 0, 0, 0, 0, 0, 0, 0]
      (by norm_num) (by norm_num)]
    norm_num [selectScale, DATA_TYPE_VELOCITY, DATA_TYPE_CURRENT]
  · norm_num [initialBleState, cfg3]

/-- Flattening of MULTI_STRUCT items `(device-id, value-high, value-low)` into
the 3-byte-per-entry wire encoding. -/
def itemsBytes : List (ℕ × ℕ × ℕ) → List ℕ
  | [] => []
  | (a, b, c) :: rest => a :: b :: c :: itemsBytes rest

theorem itemsBytes_length (entries : List (ℕ × ℕ × ℕ)) :
    (itemsBytes entries).length = 3 * entries.length := by
  induction entries with
  | nil => rfl
  | cons e rest ih =>
    obtain ⟨a, b, c⟩ := e
    simp [itemsBytes, ih]
    omega

/-- One unfolding step of the MULTI_STRUCT entry scan. -/
theorem scanStructItems_succ (data : List ℕ) (my off r : ℕ) :
    scanStructItems data my off (r + 1) =
      match readByte data off, readByte data (off + 1), readByte data (off + 2) with
      | some id, some vh, some vl =>
        if id = my then some (some (toInt16 (vh * 256 + vl)))
        else scanStructItems data my (off + 3) r
      | _, _, _ => none := rfl

/-- Scanning the flattened entries right after an arbitrary prefix finds
nothing when no entry's id byte equals this device's id. -/
theorem scanStructItems_nomatch (my : ℕ) (entries : List (ℕ × ℕ × ℕ)) :
    ∀ pre : List ℕ, (∀ e ∈ entries, e.1 % 256 ≠ my) →
      scanStructItems (pre ++ itemsBytes entries) my pre.length entries.length = some none := by
  induction entries with
  | nil => intro pre h; rfl
  | cons e rest ih =>
    intro pre h
    obtain ⟨a, b, c⟩ := e
    have ha : a % 256 ≠ my := h (a, b, c) (List.mem_cons_self _ _)
    have ra : readByte (pre ++ itemsBytes ((a, b, c) :: rest)) pre.length = some (a % 256) := by
      unfold readByte
      rw [List.get?_append_right (le_refl _)]
      simp [itemsBytes]
    have rb : readByte (pre ++ itemsBytes ((a, b, c) :: rest)) (pre.length + 1) = some (b % 256) := by
      unfold readByte
      rw [List.get?_append_right (by omega)]
      simp [itemsBytes]
    have rc : readByte (pre ++ itemsBytes ((a, b, c) :: rest)) (pre.length + 2) = some (c % 256) := by
      unfold readByte
      rw [List.get?_append_right (by omega)]
      simp [itemsBytes]
    have hdata : pre ++ itemsBytes ((a, b, c) :: rest) = (pre ++ [a, b, c]) ++ itemsBytes rest := by
      simp [itemsBytes]
    have hlen3 : pre.length + 3 = (pre ++ [a, b, c]).length := by simp
    simp only [List.length_cons, scanStructItems_succ, ra, rb, rc]
    rw [if_neg ha, hdata, hlen3]
    exact ih (pre ++ [a, b, c]) (fun e he => h e (List.mem_cons_of_mem _ he))

/-- A framed MULTI_STRUCT frame none of whose entries carries this device's id
sets `data_scale_type` from the tag and is dropped without a response; the
setpoint, dirty flag and `last_multi_struct_cmd` are untouched. -/
theorem parseMultiStruct_nomatch (cfg : BleConfig) (st : BleState) (dt C : ℕ)
    (entries : List (ℕ × ℕ × ℕ))
    (hdt : dt < 256) (hC : C < 256)
    (hcount : entries.length = C)
    (hnm : ∀ e ∈ entries, e.1 % 256 ≠ cfg.my_device_id) :
    parseDirectCommandData cfg st (170 :: 85 :: 3 :: dt :: C :: itemsBytes entries) =
      some ({ st with data_scale_type := (selectScale cfg dt).2 }, []) := by
  have h2 : dt % 256 = dt := Nat.mod_eq_of_lt hdt
  have h4 : C % 256 = C := Nat.mod_eq_of_lt hC
  have e0 : readByte (170 :: 85 :: 3 :: dt :: C :: itemsBytes entries) 0 = some 170 := rfl
  have e1 : readByte (170 :: 85 :: 3 :: dt :: C :: itemsBytes entries) 1 = some 85 := rfl
  have e2 : readByte (170 :: 85 :: 3 :: dt :: C :: itemsBytes entries) 2 = some 3 := rfl
  have e3 : readByte (170 :: 85 :: 3 :: dt :: C :: itemsBytes entries) 3 = some dt := by
    simp [readByte, List.get?, h2]
  have e4 : readByte (170 :: 85 :: 3 :: dt :: C :: itemsBytes entries) 4 = some C := by
    simp [readByte, List.get?, h4]
  have hscan := scanStructItems_nomatch cfg.my_device_id entries [170, 85, 3, dt, C] hnm
  rw [hcount] at hscan
  simp only [List.cons_append, List.nil_append, List.length_cons, List.length_nil] at hscan
  have hlen5 : (itemsBytes entries).length + 1 + 1 + 1 + 1 + 1 = 5 + C * 3 := by
    rw [itemsBytes_length, hcount]; omega
  have hlt3 : ¬(5 + C * 3 < 3) := by omega
  simp [parseDirectCommandData, parseMultiStruct, e0, e1, e2, e3, e4, hscan, hlen5, hlt3,
    PACKET_TYPE_SINGLE, PACKET_TYPE_MULTI, PACKET_TYPE_MULTI_STRUCT]

/-- Claim C2 (amended): a frame whose addressing misses this device emits no
acknowledgement and leaves the setpoint and `last_multi_struct_cmd` unchanged;
however, a SINGLE miss CLEARS the dirty flag, and a MULTI slice or
MULTI_STRUCT miss overwrites the scale-mode tag from the frame's data-type
byte (leaving the dirty flag untouched). -/
theorem C2_addressing_miss_no_ack (cfg : BleConfig) (st : BleState)
    (hmy : cfg.my_device_id < 256) :
    (∀ dt tid vh vl : ℕ, ∀ junk : List ℕ, tid < 256 → tid ≠ cfg.my_device_id →
      parseDirectCommandData cfg st (170 :: 85 :: 1 :: dt :: tid :: vh :: vl :: junk) =
        some ({ st with new_command := false }, [])) ∧
    (∀ dt tid vh vl : ℕ, ∀ junk : List ℕ, tid < 256 → tid ≠ cfg.my_device_id →
      1 ≤ junk.length →
      parseDirectCommandData cfg st (1 :: tid :: dt :: vh :: vl :: junk) =
        some ({ st with new_command := false }, [])) ∧
    (∀ dt S C : ℕ, ∀ payload : List ℕ, dt < 256 → S < 256 → C < 256 →
      1 ≤ S → S ≤ cfg.MAX_MOTORS → 1 ≤ C → payload.length = 2 * C →
      (cfg.my_device_id < S ∨ S + C ≤ cfg.my_device_id) →
      parseDirectCommandData cfg st (170 :: 85 :: 2 :: dt :: S :: C :: payload) =
        some ({ st with data_scale_type := (selectScale cfg dt).2 }, [])) ∧
    (∀ dt C : ℕ, ∀ entries : List (ℕ × ℕ × ℕ), dt < 256 → C < 256 →
      entries.length = C → (∀ e ∈ entries, e.1 < 256 ∧ e.1 ≠ cfg.my_device_id) →
      parseDirectCommandData cfg st (170 :: 85 :: 3 :: dt :: C :: itemsBytes entries) =
        some ({ st with data_scale_type := (selectScale cfg dt).2 }, [])) := by
  refine ⟨?_, ?_, ?_, ?_⟩
  · intro dt tid vh vl junk htid hne
    exact parseSingle_framed_miss cfg st dt tid vh vl junk htid hne
  · intro dt tid vh vl junk htid hne hjunk
    exact parseSingle_unframed_miss cfg st dt tid vh vl junk htid hne hjunk
  · intro dt S C payload hdt hS hC hS1 hSmax hC1 hlen hout
    have hmiss : cfg.my_device_id < S ∨ (S + C - 1) % 256 < cfg.my_device_id := by omega
    exact parseMulti_slice_miss cfg st dt S C payload hdt hS hC hS1 hSmax hC1 hlen hmiss
  · intro dt C entries hdt hC hcount hids
    have hnm : ∀ e ∈ entries, e.1 % 256 ≠ cfg.my_device_id := by
      intro e he
      rw [Nat.mod_eq_of_lt (hids e he).1]
      exact (hids e he).2
    exact parseMultiStruct_nomatch cfg st dt C entries hdt hC hcount hnm

/-- Witness for C2: a framed SINGLE frame for device 7 received by device 6
yields no response and leaves the setpoint at its initial value. -/
theorem C2_witness :
    parseDirectCommandData specCfg initialBleState [170, 85, 1, 0, 7, 0, 100] =
      some ({ initialBleState with new_command := false }, []) := by
  exact (C2_addressing_miss_no_ack specCfg initialBleState (by norm_num [specCfg])).1
    0 7 0 100 [] (by norm_num) (by norm_num [specCfg])

/-- Counterexample to C2 as stated: a SINGLE frame addressed to device 7,
received by device 6 while an update is still pending, CLEARS the dirty flag
(`new_command = false` on line 180), so the decoder state is not "exactly as
it was before the call". -/
theorem C2_counterexample :
    parseDirectCommandData specCfg dirtyState [170, 85, 1, 0, 7, 0, 100] =
      some ({ dirtyState with new_command := false }, []) ∧
    ({ dirtyState with new_command := false } : BleState) ≠ dirtyState := by
  constructor
  · exact parseSingle_framed_miss specCfg dirtyState 0 7 0 100 [] (by norm_num)
      (by norm_num [specCfg])
  · simp [dirtyState]

/-- A byte read fails exactly when the offset is past the received length. -/
theorem readByte_eq_none (data : List ℕ) (i : ℕ) :
    readByte data i = none ↔ data.length ≤ i := by
  simp [readByte, List.get?_eq_none]

/-- The MULTI_STRUCT scan never fails when the declared entry block lies
within the received length. -/
theorem scanStructItems_isSome (data : List ℕ) (my : ℕ) :
    ∀ (r off : ℕ), off + 3 * r ≤ data.length →
      (scanStructItems data my off r).isSome := by
  intro r
  induction r with
  | zero => intro off h; simp [scanStructItems]
  | succ k ih =>
    intro off h
    rw [scanStructItems_succ]
    obtain ⟨id, e1, -⟩ := readByte_some data off (by omega)
    obtain ⟨vh, e2, -⟩ := readByte_some data (off + 1) (by omega)
    obtain ⟨vl, e3, -⟩ := readByte_some data (off + 2) (by omega)
    simp only [e1, e2, e3]
    split_ifs with h'
    · simp
    · exact ih (off + 3) (by omega)

/-- The SINGLE branch never dereferences past the received length. -/
theorem parseSingle_isSome (cfg : BleConfig) (st : BleState) (data : List ℕ)
    (hdr : Bool) : (parseSingle cfg st data hdr).isSome := by
  cases hdr
  · by_cases h6 : data.length < 6
    · simp [parseSingle, h6]
    · obtain ⟨tid, e1, -⟩ := readByte_some data 1 (by omega)
      obtain ⟨d, e2, -⟩ := readByte_some data 2 (by omega)
      obtain ⟨vh, e3, -⟩ := readByte_some data 3 (by omega)
      obtain ⟨vl, e4, -⟩ := readByte_some data 4 (by omega)
      simp only [parseSingle, Bool.false_eq_true, if_false, if_neg h6, e1, e2, e3, e4]
      split_ifs <;> simp
  · by_cases h7 : data.length < 7
    · simp [parseSingle, h7]
    · obtain ⟨tid, e4, -⟩ := readByte_some data 4 (by omega)
      obtain ⟨d, e3, -⟩ := readByte_some data 3 (by omega)
      obtain ⟨vh, e5, -⟩ := readByte_some data 5 (by omega)
      obtain ⟨vl, e6, -⟩ := readByte_some data 6 (by omega)
      simp only [parseSingle, if_true, if_neg h7, e3, e4, e5, e6]
      split_ifs <;> simp

/-- The MULTI branch never dereferences past the received length: every
computed offset is validated before the read. -/
theorem parseMulti_isSome (cfg : BleConfig) (st : BleState) (data : List ℕ)
    (hdr : Bool) : (parseMulti cfg st data hdr).isSome := by
  cases hdr
  · by_cases h1 : data.length ≤ 1
    · simp [parseMulti, h1]
    · obtain ⟨dt, edt, -⟩ := readByte_some data 1 (by omega)
      simp [parseMulti, h1, edt]
  · by_cases h3 : data.length ≤ 3
    · simp [parseMulti, h3]
    · obtain ⟨dt, edt, -⟩ := readByte_some data 3 (by omega)
      by_cases h6 : 6 ≤ data.length
      · obtain ⟨S, eS, -⟩ := readByte_some data 4 (by omega)
        obtain ⟨C, eC, -⟩ := readByte_some data 5 (by omega)
        by_cases hval : (1 ≤ S ∧ S ≤ cfg.MAX_MOTORS ∧ 1 ≤ C) ∧ data.length = 6 + C * 2
        · have hA : ¬(6 + C * 2 ≤ 3) := by omega
          by_cases hmiss : cfg.my_device_id < S ∨ (S + C - 1) % 256 < cfg.my_device_id
          · simp [parseMulti, h3, edt, eS, eC, h6, hval, hmiss, hA]
          · by_cases hbound : data.length < 6 + (cfg.my_device_id - S) * 2 + 2
            · have hB : 6 + C * 2 < 6 + (cfg.my_device_id - S) * 2 + 2 := by omega
              simp [parseMulti, h3, edt, eS, eC, h6, hval, hmiss, hB, hA]
            · have hB : ¬(6 + C * 2 < 6 + (cfg.my_device_id - S) * 2 + 2) := by omega
              obtain ⟨vh, evh, -⟩ :=
                readByte_some data (6 + (cfg.my_device_id - S) * 2) (by omega)
              obtain ⟨vl, evl, -⟩ :=
                readByte_some data (6 + (cfg.my_device_id - S) * 2 + 1) (by omega)
              simp [parseMulti, h3, edt, eS, eC, h6, hval, hmiss, hB, hA, evh, evl]
        · by_cases h24 : data.length = 24
          · rw [h24] at hval
            by_cases hrange : cfg.my_device_id = 0 ∨ 10 < cfg.my_device_id
            · simp [parseMulti, h3, edt, eS, eC, h6, hval, h24, hrange]
            · by_cases hbound : data.length < 4 + (cfg.my_device_id - 1) * 2 + 2
              · have hB : (24 : ℕ) < 4 + (cfg.my_device_id - 1) * 2 + 2 := by omega
                simp [parseMulti, h3, edt, eS, eC, h6, hval, h24, hrange, hB]
              · have hB : ¬((24 : ℕ) < 4 + (cfg.my_device_id - 1) * 2 + 2) := by omega
                obtain ⟨vh, evh, -⟩ :=
                  readByte_some data (4 + (cfg.my_device_id - 1) * 2) (by omega)
                obtain ⟨vl, evl, -⟩ :=
                  readByte_some data (4 + (cfg.my_device_id - 1) * 2 + 1) (by omega)
                simp [parseMulti, h3, edt, eS, eC, h6, hval, h24, hrange, hB, evh, evl]
          · simp [parseMulti, h3, edt, eS, eC, h6, hval, h24]
      · have h24 : ¬(data.length = 24) := by omega
        simp [parseMulti, h3, edt, h6, h24]

/-- The MULTI_STRUCT branch never dereferences past the received length. -/
theorem parseMultiStruct_isSome (cfg : BleConfig) (st : BleState) (data : List ℕ)
    (hdr : Bool) : (parseMultiStruct cfg st data hdr).isSome := by
  cases hdr
  · by_cases h3 : data.length < 3
    · simp [parseMultiStruct, h3]
    · obtain ⟨dt, edt, -⟩ := readByte_some data 1 (by omega)
      obtain ⟨C, eC, -⟩ := readByte_some data 2 (by omega)
      by_cases hlen : data.length < 3 + C * 3
      · simp [parseMultiStruct, h3, edt, eC, hlen]
      · have hscan := scanStructItems_isSome data cfg.my_device_id C 3 (by omega)
        obtain ⟨o, ho⟩ := Option.isSome_iff_exists.mp hscan
        cases o with
        | none => simp [parseMultiStruct, h3, edt, eC, hlen, ho]
        | some raw => simp [parseMultiStruct, h3, edt, eC, hlen, ho]
  · by_cases h5 : data.length < 5
    · simp [parseMultiStruct, h5]
    · obtain ⟨dt, edt, -⟩ := readByte_some data 3 (by omega)
      obtain ⟨C, eC, -⟩ := readByte_some data 4 (by omega)
      by_cases hlen : data.length < 5 + C * 3
      · simp [parseMultiStruct, h5, edt, eC, hlen]
      · have hscan := scanStructItems_isSome data cfg.my_device_id C 5 (by omega)
        obtain ⟨o, ho⟩ := Option.isSome_iff_exists.mp hscan
        cases o with
        | none => simp [parseMultiStruct, h5, edt, eC, hlen, ho]
        | some raw => simp [parseMultiStruct, h5, edt, eC, hlen, ho]

/-- `parseDirectCommandData` never dereferences a byte offset past the
received length: decoding always returns a result. -/
theorem parseDirectCommandData_isSome (cfg : BleConfig) (st : BleState)
    (data : List ℕ) : (parseDirectCommandData cfg st data).isSome := by
  by_cases h3 : data.length < 3
  · simp [parseDirectCommandData, h3]
  · obtain ⟨b0, e0, -⟩ := readByte_some data 0 (by omega)
    obtain ⟨b1, e1, -⟩ := readByte_some data 1 (by omega)
    obtain ⟨b2, e2, -⟩ := readByte_some data 2 (by omega)
    simp only [parseDirectCommandData, if_neg h3, e0, e1, e2]
    split_ifs <;>
      first
        | exact parseSingle_isSome ..
        | exact parseMulti_isSome ..
        | exact parseMultiStruct_isSome ..
        | simp

/-- A framed SINGLE frame shorter than its 7-byte minimum is dropped with no
state mutation at all and no response. -/
theorem parseSingle_short_drop (cfg : BleConfig) (st : BleState) (rest : List ℕ)
    (hrest : rest.length < 4) :
    parseDirectCommandData cfg st (170 :: 85 :: 1 :: rest) =
      some (st, []) := by
  have e0 : readByte (170 :: 85 :: 1 :: rest) 0 = some 170 := rfl
  have e1 : readByte (170 :: 85 :: 1 :: rest) 1 = some 85 := rfl
  have e2 : readByte (170 :: 85 :: 1 :: rest) 2 = some 1 := rfl
  have hlt3 : ¬(rest.length + 1 + 1 + 1 < 3) := by omega
  have hlt7 : rest.length + 1 + 1 + 1 < 7 := by omega
  simp [parseDirectCommandData, parseSingle, e0, e1, e2, hlt3, hlt7,
    PACKET_TYPE_SINGLE, PACKET_TYPE_MULTI, PACKET_TYPE_MULTI_STRUCT]

/-- A framed MULTI frame whose declared count implies a length exceeding the
received payload — and whose total length is not the legacy 24 — only
overwrites `data_scale_type` and is dropped without a response. -/
theorem parseMulti_badlen_drop (cfg : BleConfig) (st : BleState) (dt S C : ℕ)
    (payload : List ℕ)
    (hdt : dt < 256) (hS : S < 256) (hC : C < 256)
    (hshort : payload.length < 2 * C) (hnot24 : payload.length ≠ 18) :
    parseDirectCommandData cfg st (170 :: 85 :: 2 :: dt :: S :: C :: payload) =
      some ({ st with data_scale_type := (selectScale cfg dt).2 }, []) := by
  have h2 : dt % 256 = dt := Nat.mod_eq_of_lt hdt
  have h3 : S % 256 = S := Nat.mod_eq_of_lt hS
  have h4 : C % 256 = C := Nat.mod_eq_of_lt hC
  have e0 : readByte (170 :: 85 :: 2 :: dt :: S :: C :: payload) 0 = some 170 := rfl
  have e1 : readByte (170 :: 85 :: 2 :: dt :: S :: C :: payload) 1 = some 85 := rfl
  have e2 : readByte (170 :: 85 :: 2 :: dt :: S :: C :: payload) 2 = some 2 := rfl
  have e3 : readByte (170 :: 85 :: 2 :: dt :: S :: C :: payload) 3 = some dt := by
    simp [readByte, List.get?, h2]
  have e4 : readByte (170 :: 85 :: 2 :: dt :: S :: C :: payload) 4 = some S := by
    simp [readByte, List.get?, h3]
  have e5 : readByte (170 :: 85 :: 2 :: dt :: S :: C :: payload) 5 = some C := by
    simp [readByte, List.get?, h4]
  have hnoslice : ¬((1 ≤ S ∧ S ≤ cfg.MAX_MOTORS ∧ 1 ≤ C) ∧
      payload.length + 1 + 1 + 1 + 1 + 1 + 1 = 6 + C * 2) := by omega
  have h24 : ¬(payload.length + 1 + 1 + 1 + 1 + 1 + 1 = 24) := by omega
  have hlt3 : ¬(payload.length + 1 + 1 + 1 + 1 + 1 + 1 < 3) := by omega
  have hle3 : ¬(payload.length + 1 + 1 + 1 + 1 + 1 + 1 ≤ 3) := by omega
  simp [parseDirectCommandData, parseMulti, e0, e1, e2, e3, e4, e5,
    hnoslice, h24, hlt3, hle3,
    PACKET_TYPE_SINGLE, PACKET_TYPE_MULTI, PACKET_TYPE_MULTI_STRUCT]

/-- A framed MULTI_STRUCT frame whose declared entry count implies a length
exceeding the received payload only overwrites `data_scale_type` and is
dropped without a response. -/
theorem parseMultiStruct_badlen_drop (cfg : BleConfig) (st : BleState) (dt C : ℕ)
    (rest : List ℕ)
    (hdt : dt < 256) (hC : C < 256) (hshort : rest.length < 3 * C) :
    parseDirectCommandData cfg st (170 :: 85 :: 3 :: dt :: C :: rest) =
      some ({ st with data_scale_type := (selectScale cfg dt).2 }, []) := by
  have h2 : dt % 256 = dt := Nat.mod_eq_of_lt hdt
  have h4 : C % 256 = C := Nat.mod_eq_of_lt hC
  have e0 : readByte (170 :: 85 :: 3 :: dt :: C :: rest) 0 = some 170 := rfl
  have e1 : readByte (170 :: 85 :: 3 :: dt :: C :: rest) 1 = some 85 := rfl
  have e2 : readByte (170 :: 85 :: 3 :: dt :: C :: rest) 2 = some 3 := rfl
  have e3 : readByte (170 :: 85 :: 3 :: dt :: C :: rest) 3 = some dt := by
    simp [readByte, List.get?, h2]
  have e4 : readByte (170 :: 85 :: 3 :: dt :: C :: rest) 4 = some C := by
    simp [readByte, List.get?, h4]
  have hlt3 : ¬(rest.length + 1 + 1 + 1 + 1 + 1 < 3) := by omega
  have hlt5 : ¬(rest.length + 1 + 1 + 1 + 1 + 1 < 5) := by omega
  have hshort5 : rest.length + 1 + 1 + 1 + 1 + 1 < 5 + C * 3 := by omega
  simp [parseDirectCommandData, parseMultiStruct, e0, e1, e2, e3, e4,
    hlt3, hlt5, hshort5,
    PACKET_TYPE_SINGLE, PACKET_TYPE_MULTI, PACKET_TYPE_MULTI_STRUCT]

/-- Claim C3 (amended): decoding never dereferences a byte offset past the
received length, and a frame whose declared count or length fields imply a
length exceeding the received payload is dropped without acknowledgement and
without touching the setpoint, the dirty flag, or `last_multi_struct_cmd` —
with two caveats exhibited by the counterexample: MULTI and MULTI_STRUCT
frames overwrite the scale-mode tag before length validation, and a framed
MULTI with invalid slice fields whose total length happens to be exactly 24 is
reinterpreted as a legacy fixed-form frame and processed (acknowledgement
included) instead of dropped. -/
theorem C3_malformed_drop (cfg : BleConfig) (st : BleState) :
    (∀ data : List ℕ, (parseDirectCommandData cfg st data).isSome) ∧
    (∀ rest : List ℕ, rest.length < 4 →
      parseDirectCommandData cfg st (170 :: 85 :: 1 :: rest) = some (st, [])) ∧
    (∀ dt S C : ℕ, ∀ payload : List ℕ, dt < 256 → S < 256 → C < 256 →
      payload.length < 2 * C → payload.length ≠ 18 →
      parseDirectCommandData cfg st (170 :: 85 :: 2 :: dt :: S :: C :: payload) =
        some ({ st with data_scale_type := (selectScale cfg dt).2 }, [])) ∧
    (∀ dt C : ℕ, ∀ rest : List ℕ, dt < 256 → C < 256 → rest.length < 3 * C →
      parseDirectCommandData cfg st (170 :: 85 :: 3 :: dt :: C :: rest) =
        some ({ st with data_scale_type := (selectScale cfg dt).2 }, [])) := by
  refine ⟨?_, ?_, ?_, ?_⟩
  · intro data
    exact parseDirectCommandData_isSome cfg st data
  · intro rest hrest
    exact parseSingle_short_drop cfg st rest hrest
  · intro dt S C payload hdt hS hC hshort hnot24
    exact parseMulti_badlen_drop cfg st dt S C payload hdt hS hC hshort hnot24
  · intro dt C rest hdt hC hshort
    exact parseMultiStruct_badlen_drop cfg st dt C rest hdt hC hshort

/-- Witness for C3: a MULTI_STRUCT frame announcing 5 entries but carrying
none is dropped (after the tag write) with no acknowledgement, and decoding a
torn 2-byte frame still returns a result. -/
theorem C3_witness :
    parseDirectCommandData specCfg initialBleState [170, 85, 3, 1, 5] =
      some ({ initialBleState with data_scale_type := 1 }, []) ∧
    (parseDirectCommandData specCfg initialBleState [170, 85]).isSome := by
  constructor
  · have h := (C3_malformed_drop specCfg initialBleState).2.2.2 1 5 []
      (by norm_num) (by norm_num) (by norm_num)
    rw [show (170 :: 85 :: 3 :: 1 :: 5 :: ([] : List ℕ)) = [170, 85, 3, 1, 5] from rfl] at h
    rw [h]
    norm_num [selectScale, DATA_TYPE_VELOCITY, DATA_TYPE_CURRENT]
  · exact (C3_malformed_drop specCfg initialBleState).1 [170, 85]

/-- Counterexample to C3 as stated: a framed MULTI frame declaring count 200
(which would need 406 bytes) but carrying only 24 bytes is NOT dropped — the
slice validation fails and the 24-byte total re-dispatches it to the legacy
fixed form, which updates the setpoint (to 5), sets the dirty flag, rewrites
the scale tag, and emits an acknowledgement. -/
theorem C3_counterexample :
    parseDirectCommandData specCfg initialBleState
        [170, 85, 2, 1, 1, 200, 0, 0, 0, 0, 0, 0, 0, 0, 1, 244, 0, 0, 0, 0, 0, 0, 0, 0] =
      some ({ initialBleState with
                ble_motor_target := 5
                new_command := true
                data_scale_type := 1 },
        [BleResp.ack 6 RespTag.multi 5]) ∧
    [BleResp.ack 6 RespTag.multi 5] ≠ ([] : List BleResp) := by
  constructor
  · norm_num [parseDirectCommandData, parseMulti, readByte, List.get?, toInt16,
      int16ToFloat, applyDedup, selectScale, specCfg, initialBleState, fabs,
      PACKET_TYPE_SINGLE, PACKET_TYPE_MULTI, PACKET_TYPE_MULTI_STRUCT,
      DATA_TYPE_VELOCITY, DATA_TYPE_CURRENT, emptyMultiStruct]
  · simp

/-- The C library `fmod`: `x - trunc(x / y) * y`, truncation toward zero. -/
noncomputable def fmod (x y : ℝ) : ℝ :=
  x - (if 0 ≤ x / y then ((⌊x / y⌋ : ℤ) : ℝ) else ((⌈x / y⌉ : ℤ) : ℝ)) * y

/-- `normalizeAngle` of `FOC_Core.cpp`: reduce modulo `2π` and add `2π` to a
negative remainder. -/
noncomputable def normalizeAngle (angle : ℝ) : ℝ :=
  let a := fmod angle (2 * Real.pi)
  if 0 ≤ a then a else a + 2 * Real.pi

/-- The `_constrain` macro of `FOC.h`:
`(amt)<(low)?(low):((amt)>(high)?(high):(amt))`. -/
noncomputable def _constrain (amt low high : ℝ) : ℝ :=
  if amt < low then low else if high < amt then high else amt

/-- `setPwm` of `FOC_Core.cpp`, returning the three duty-cycle fractions that
are handed to the PWM driver (the `ledcWrite` scaling by 255 is the external
driver's contract). -/
noncomputable def setPwm (Ua Ub Uc voltage_power_supply : ℝ) : ℝ × ℝ × ℝ :=
  let Ua' := _constrain Ua 0 voltage_power_supply
  let Ub' := _constrain Ub 0 voltage_power_supply
  let Uc' := _constrain Uc 0 voltage_power_supply
  let dc_a := _constrain (Ua' / voltage_power_supply) 0 1
  let dc_b := _constrain (Ub' / voltage_power_supply) 0 1
  let dc_c := _constrain (Uc' / voltage_power_supply) 0 1
  (dc_a, dc_b, dc_c)

/-- `setTorque` of `FOC_Core.cpp`: clamp `Uq` to ±(supply/2), `Ud = 0`,
normalize the electrical angle, inverse Park then inverse Clarke transform,
and hand the three phase voltages to `setPwm`. -/
noncomputable def setTorque (Uq angle_el voltage_power_supply : ℝ) : ℝ × ℝ × ℝ :=
  let Uq' := _constrain Uq (-voltage_power_supply / 2) (voltage_power_supply / 2)
  let angle := normalizeAngle angle_el
  let Ualpha := -Uq' * Real.sin angle
  let Ubeta := Uq' * Real.cos angle
  let Ua := Ualpha + voltage_power_supply / 2
  let Ub := (Real.sqrt 3 * Ubeta - Ualpha) / 2 + voltage_power_supply / 2
  let Uc := (-Ualpha - Real.sqrt 3 * Ubeta) / 2 + voltage_power_supply / 2
  setPwm Ua Ub Uc voltage_power_supply

/-- `electricalAngle` of `FOC_Core.cpp`:
`normalizeAngle((float)(DIR * PP) * mechanicalAngle - zero_electric_angle)`,
with the sensor reading and the stored offset as explicit arguments. -/
noncomputable def electricalAngle (DIR PP : ℤ) (mechanicalAngle zero_electric_angle : ℝ) : ℝ :=
  normalizeAngle (((DIR * PP : ℤ) : ℝ) * mechanicalAngle - zero_electric_angle)

/-- Step 3 of `calibrateSensor` of `FOC_Core.cpp`: the new stored
`zero_electric_angle` is `electricalAngle()` evaluated at the held rotor
position while the PREVIOUS offset is still in effect (the torque commands and
the sensor refresh of steps 1–2 and 4 are external I/O). -/
noncomputable def calibrateSensor (PP DIR : ℤ) (mechanicalAngleAtHold zero_old : ℝ) : ℝ :=
  electricalAngle DIR PP mechanicalAngleAtHold zero_old

/-- The normalized angle is `2π` times the fractional part of `x / 2π`:
truncated modulus plus the negative-remainder fixup computes the standard
floor-based reduction. -/
theorem normalizeAngle_eq_fract (x : ℝ) :
    normalizeAngle x = 2 * Real.pi * Int.fract (x / (2 * Real.pi)) := by
  have hy : (0:ℝ) < 2 * Real.pi := Real.two_pi_pos
  have hy0 : (2 * Real.pi) ≠ 0 := ne_of_gt hy
  unfold normalizeAngle fmod
  set q := x / (2 * Real.pi) with hq
  have hx : x = q * (2 * Real.pi) := (div_mul_cancel₀ x hy0).symm
  by_cases h0 : 0 ≤ q
  · rw [if_pos h0]
    have hfr : x - ((⌊q⌋ : ℤ) : ℝ) * (2 * Real.pi) = Int.fract q * (2 * Real.pi) := by
      rw [Int.fract]
      nth_rewrite 1 [hx]
      ring
    rw [hfr, if_pos (mul_nonneg (Int.fract_nonneg q) hy.le)]
    ring
  · push_neg at h0
    rw [if_neg (not_le.mpr h0)]
    by_cases hz : Int.fract q = 0
    · have hqint : ((⌊q⌋ : ℤ) : ℝ) = q := by
        rw [Int.fract] at hz
        linarith
      have hceil : ((⌈q⌉ : ℤ) : ℝ) = q := by
        rw [← hqint, Int.ceil_intCast]
      have hm : x - ((⌈q⌉ : ℤ) : ℝ) * (2 * Real.pi) = 0 := by
        nth_rewrite 1 [hx]
        rw [hceil]
        ring
      rw [hm, hz]
      norm_num
    · have hfl : ((⌊q⌋ : ℤ) : ℝ) < q := by
        rcases lt_or_eq_of_le (Int.floor_le q) with h | h
        · exact h
        · exact absurd (by rw [Int.fract]; linarith) hz
      have hqc : q < ((⌈q⌉ : ℤ) : ℝ) := by
        rcases lt_or_eq_of_le (Int.le_ceil q) with h | h
        · exact h
        · refine absurd ?_ hz
          rw [h, Int.fract_intCast]
      have hceil : ⌈q⌉ = ⌊q⌋ + 1 := by
        refine le_antisymm (Int.ceil_le_floor_add_one q) ?_
        have h1 : ((⌊q⌋ : ℤ) : ℝ) < ((⌈q⌉ : ℤ) : ℝ) := lt_trans hfl (by exact_mod_cast hqc)
        exact_mod_cast Int.add_one_le_iff.mpr (by exact_mod_cast h1)
      have hmneg : x - ((⌈q⌉ : ℤ) : ℝ) * (2 * Real.pi) < 0 := by
        nth_rewrite 1 [hx]
        have := mul_lt_mul_of_pos_right hqc hy
        linarith
      rw [if_neg (not_le.mpr hmneg)]
      rw [Int.fract]
      have hc : ((⌈q⌉ : ℤ) : ℝ) = ((⌊q⌋ : ℤ) : ℝ) + 1 := by exact_mod_cast hceil
      rw [hc]
      nth_rewrite 1 [hx]
      ring

/-- `normalizeAngle` always lands in `[0, 2π)`. -/
theorem normalizeAngle_mem_Ico (x : ℝ) :
    normalizeAngle x ∈ Set.Ico 0 (2 * Real.pi) := by
  rw [normalizeAngle_eq_fract]
  constructor
  · exact mul_nonneg Real.two_pi_pos.le (Int.fract_nonneg _)
  · calc 2 * Real.pi * Int.fract (x / (2 * Real.pi)) <
        2 * Real.pi * 1 := by
          exact mul_lt_mul_of_pos_left (Int.fract_lt_one _) Real.two_pi_pos
    _ = 2 * Real.pi := mul_one _

/-- `normalizeAngle x` equals a value `c` of `[0, 2π)` exactly when `x` and
`c` differ by an integer multiple of `2π`. -/
theorem normalizeAngle_eq_iff {x c : ℝ} (hc0 : 0 ≤ c) (hc2 : c < 2 * Real.pi) :
    normalizeAngle x = c ↔ ∃ k : ℤ, x - c = k * (2 * Real.pi) := by
  have hy : (0:ℝ) < 2 * Real.pi := Real.two_pi_pos
  have hy0 : (2 * Real.pi) ≠ 0 := ne_of_gt hy
  rw [normalizeAngle_eq_fract]
  constructor
  · intro h
    have hfr : Int.fract (x / (2 * Real.pi)) = c / (2 * Real.pi) := by
      rw [eq_div_iff hy0]
      linarith [h]
    obtain ⟨-, -, z, hz⟩ := Int.fract_eq_iff.mp hfr
    refine ⟨z, ?_⟩
    have h2 : (x - c) / (2 * Real.pi) = (z : ℝ) := by
      rw [sub_div]
      exact hz
    calc x - c = (x - c) / (2 * Real.pi) * (2 * Real.pi) := (div_mul_cancel₀ _ hy0).symm
    _ = (z : ℝ) * (2 * Real.pi) := by rw [h2]
  · rintro ⟨k, hk⟩
    have hx : x / (2 * Real.pi) = c / (2 * Real.pi) + (k : ℝ) := by
      field_simp
      linarith [hk]
    rw [hx]
    rw [show c / (2 * Real.pi) + (k : ℝ) = c / (2 * Real.pi) + (k : ℤ) from rfl,
      Int.fract_add_int]
    rw [Int.fract_eq_self.mpr ⟨div_nonneg hc0 hy.le, (div_lt_one hy).mpr hc2⟩]
    field_simp

/-- Claim C7: for every pole-pair count, direction sign in {+1, −1}, real
mechanical angle and stored offset, `electricalAngle()` returns
`normalize(DIR · PP · mechanicalAngle − zeroElectricAngleOffset)` and the
result always lies in the half-open interval `[0, 2π)` — strictly below `2π`
— including for negative mechanical angles. -/
theorem C7_electrical_angle_in_Ico (DIR PP : ℤ) (mech zero : ℝ)
    (hDIR : DIR = 1 ∨ DIR = -1) :
    electricalAngle DIR PP mech zero =
      normalizeAngle (((DIR * PP : ℤ) : ℝ) * mech - zero) ∧
    electricalAngle DIR PP mech zero ∈ Set.Ico 0 (2 * Real.pi) :=
  ⟨rfl, normalizeAngle_mem_Ico _⟩

/-- Witness for C7: a negative mechanical angle with 7 pole pairs and a
nonzero offset still lands in `[0, 2π)`. -/
theorem C7_witness :
    electricalAngle 1 7 (-5) 1 = normalizeAngle (((1 * 7 : ℤ) : ℝ) * (-5) - 1) ∧
    electricalAngle 1 7 (-5) 1 ∈ Set.Ico 0 (2 * Real.pi) :=
  C7_electrical_angle_in_Ico 1 7 (-5) 1 (Or.inl rfl)

/-- Claim C8: commanding zero q-axis voltage at any electrical angle with any
positive supply voltage produces three phase duty cycles all exactly 1/2. -/
theorem C8_zero_torque_half_duty (angle_el voltage_power_supply : ℝ)
    (hv : 0 < voltage_power_supply) :
    setTorque 0 angle_el voltage_power_supply = (1/2, 1/2, 1/2) := by
  have hv0 : voltage_power_supply ≠ 0 := ne_of_gt hv
  have hUq : _constrain 0 (-voltage_power_supply / 2) (voltage_power_supply / 2) = 0 := by
    unfold _constrain
    rw [if_neg (by linarith), if_neg (by linarith)]
  have hmid : _constrain (voltage_power_supply / 2) 0 voltage_power_supply =
      voltage_power_supply / 2 := by
    unfold _constrain
    rw [if_neg (by linarith), if_neg (by linarith)]
  have hhalf : voltage_power_supply / 2 / voltage_power_supply = 1 / 2 := by
    field_simp
    ring
  have hdc : _constrain (1 / 2) 0 1 = 1 / 2 := by
    unfold _constrain
    rw [if_neg (by norm_num), if_neg (by norm_num)]
  unfold setTorque
  rw [hUq]
  unfold setPwm
  norm_num
  rw [hmid, hhalf, hdc]

/-- Witness for C8: at electrical angle 1 rad and a 12 V supply, zero q-axis
voltage gives duty cycles (1/2, 1/2, 1/2). -/
theorem C8_witness : setTorque 0 1 12 = (1/2, 1/2, 1/2) :=
  C8_zero_torque_half_duty 1 12 (by norm_num)

/-- Claim C10 (amended): the offset stored by calibration equals
`normalize(DIR · PP · mechanicalAngleAtHold − previousOffset)` — the previous
offset is still in effect while the new one is computed; for a stored previous
offset in `[0, 2π)` it is a pure function of the sensor reading alone exactly
when the previous offset is zero; and re-running calibration at the same rotor
position reproduces the stored offset exactly when
`DIR · PP · mech − 2·storedOffset` is an integer multiple of `2π` (for
instance at `mech = 0` with zero prior offset), so calibration is idempotent
precisely at those fixed points and at no others. -/
theorem C10_calibration_offset (PP DIR : ℤ) (mech prev : ℝ)
    (hDIR : DIR = 1 ∨ DIR = -1) :
    calibrateSensor PP DIR mech prev =
      normalizeAngle (((DIR * PP : ℤ) : ℝ) * mech - prev) ∧
    (prev ∈ Set.Ico 0 (2 * Real.pi) →
      (calibrateSensor PP DIR mech prev = calibrateSensor PP DIR mech 0 ↔ prev = 0)) ∧
    (calibrateSensor PP DIR mech (calibrateSensor PP DIR mech prev) =
        calibrateSensor PP DIR mech prev ↔
      ∃ k : ℤ, ((DIR * PP : ℤ) : ℝ) * mech - 2 * calibrateSensor PP DIR mech prev =
        k * (2 * Real.pi)) := by
  have hy : (0:ℝ) < 2 * Real.pi := Real.two_pi_pos
  refine ⟨rfl, ?_, ?_⟩
  · rintro ⟨hp0, hp2⟩
    unfold calibrateSensor electricalAngle
    rw [sub_zero]
    set x := ((DIR * PP : ℤ) : ℝ) * mech with hxdef
    constructor
    · intro h
      obtain ⟨hN0, hN2⟩ := normalizeAngle_mem_Ico x
      obtain ⟨k, hk⟩ := (normalizeAngle_eq_iff hN0 hN2).mp h
      obtain ⟨k0, hk0⟩ := (normalizeAngle_eq_iff hN0 hN2).mp (rfl :
        normalizeAngle x = normalizeAngle x)
      have hprev : prev = ((k0 - k : ℤ) : ℝ) * (2 * Real.pi) := by
        push_cast
        linarith [hk, hk0]
      rcases lt_trichotomy (k0 - k) 0 with hm | hm | hm
      · exfalso
        have h1 : ((k0 - k : ℤ) : ℝ) ≤ -1 := by exact_mod_cast (by omega : (k0 - k : ℤ) ≤ -1)
        nlinarith [hprev, hp0, hy]
      · rw [hprev, hm]
        norm_num
      · exfalso
        have h1 : (1 : ℝ) ≤ ((k0 - k : ℤ) : ℝ) := by exact_mod_cast hm
        nlinarith [hprev, hp2, hy]
    · intro h
      rw [h, sub_zero]
  · unfold calibrateSensor electricalAngle
    set x := ((DIR * PP : ℤ) : ℝ) * mech with hxdef
    obtain ⟨hN0, hN2⟩ := normalizeAngle_mem_Ico (x - prev)
    rw [normalizeAngle_eq_iff hN0 hN2]
    constructor
    · rintro ⟨k, hk⟩
      exact ⟨k, by linarith [hk]⟩
    · rintro ⟨k, hk⟩
      exact ⟨k, by linarith [hk]⟩

/-- Witness for C10: the stored offset after a calibration with 7 pole pairs,
positive direction, the rotor held at 1 rad, and no prior offset. -/
theorem C10_witness :
    calibrateSensor 7 1 1 0 = normalizeAngle (((1 * 7 : ℤ) : ℝ) * 1 - 0) :=
  (C10_calibration_offset 7 1 1 0 (Or.inl rfl)).1

/-- Counterexample to C10 as stated: with the rotor at mechanical angle 0 and
no prior offset, calibration stores 0, and re-running it at the same position
stores 0 again — the same offset, so calibration IS idempotent there,
contradicting the claimed non-idempotence. -/
theorem C10_counterexample :
    calibrateSensor 7 1 0 (calibrateSensor 7 1 0 0) = calibrateSensor 7 1 0 0 := by
  have h0 : calibrateSensor 7 1 0 0 = 0 := by
    unfold calibrateSensor electricalAngle
    norm_num
    rw [normalizeAngle_eq_fract]
    norm_num
  rw [h0]
  exact h0

/-- Claim C9: for every target `V` and positive scale `s` with `V·s` inside
the signed 16-bit range, decoding the encoded value back reproduces `V` within
one quantization step: `|int16ToFloat (floatToInt16 V s) s − V| ≤ 1/s`. -/
theorem C9_fixed_point_roundtrip (V s : ℚ) (hs : 0 < s)
    (hlo : -32768 ≤ V * s) (hhi : V * s ≤ 32767) :
    |int16ToFloat (floatToInt16 V s) s - V| ≤ 1 / s := by
  have hs0 : s ≠ 0 := ne_of_gt hs
  unfold floatToInt16 int16ToFloat
  by_cases h0 : 0 ≤ V * s
  · rw [if_pos h0]
    have hub : ⌊V * s⌋ ≤ 32767 := by
      have h := Int.floor_le_floor hhi
      norm_num at h
      exact h
    have hlb : (-32768 : ℤ) ≤ ⌊V * s⌋ := by
      have h := Int.floor_le_floor hlo
      norm_num at h
      exact h
    rw [if_neg (by omega), if_neg (by omega)]
    have h1 : V * s - 1 < (⌊V * s⌋ : ℚ) := Int.sub_one_lt_floor (V * s)
    have h2 : (⌊V * s⌋ : ℚ) ≤ V * s := Int.floor_le _
    rw [show (⌊V * s⌋ : ℚ) / s - V = ((⌊V * s⌋ : ℚ) - V * s) / s by field_simp; ring]
    rw [abs_div, abs_of_pos hs]
    rw [div_le_div_iff_of_pos_right hs]
    rw [abs_le]
    constructor <;> linarith
  · rw [if_neg h0]
    push_neg at h0
    have hub : ⌈V * s⌉ ≤ 32767 := by
      have h := Int.ceil_le_ceil (le_of_lt (lt_of_lt_of_le h0 (by norm_num : (0:ℚ) ≤ 32767)))
      norm_num at h
      exact h
    have hlb : (-32768 : ℤ) ≤ ⌈V * s⌉ := by
      have h := Int.ceil_le_ceil hlo
      norm_num at h
      exact h
    rw [if_neg (by omega), if_neg (by omega)]
    have h1 : (⌈V * s⌉ : ℚ) < V * s + 1 := Int.ceil_lt_add_one (V * s)
    have h2 : V * s ≤ (⌈V * s⌉ : ℚ) := Int.le_ceil _
    rw [show (⌈V * s⌉ : ℚ) / s - V = ((⌈V * s⌉ : ℚ) - V * s) / s by field_simp; ring]
    rw [abs_div, abs_of_pos hs]
    rw [div_le_div_iff_of_pos_right hs]
    rw [abs_le]
    constructor <;> linarith

/-- Witness for C9: `V = 7/2` at scale 10 encodes to 35 and decodes back to
`7/2` exactly, within the `1/10` quantization step. -/
theorem C9_witness :
    |int16ToFloat (floatToInt16 (7/2) 10) 10 - 7/2| ≤ 1 / 10 :=
  C9_fixed_point_roundtrip (7/2) 10 (by norm_num) (by norm_num) (by norm_num)
